import Mathlib

/-!
Verification of the Agent Orchestration & Behavioral-Anomaly Core of
AuroraSync OS against its specification.

The repository ships the React frontend and the backend documentation
(AGENTS_GUIDE.md); the backend Python agents themselves
(app/agents/master_agent.py, app/agents/ueba_agent.py, ...) are not part of
the tree.  The core below is therefore modelled from the specification's
own words (sections 3, 4 and 8 of spec.md); the frontend pieces
(SystemHealth page, agents API client) are embedded from the JavaScript
source under src/frontend.

Numeric values (metric observations, durations, means, variances) are
modelled as rationals so every operation stays exact and decidable.
-/

namespace Aurora

/-- Opaque structured map carried by an event. -/
abbrev Payload := List (String × String)

/-- Opaque result map returned by a handler. -/
abbrev ResultMap := List (String × String)

/-- Modelled from the spec: outcome tag of one dispatch
(section 3, HandlerResult.status). -/
inductive Outcome where
  | success
  | handler_error
  | routing_error
deriving DecidableEq

/-- Modelled from the spec: an immutable typed event (section 3). -/
structure Event where
  type : String
  payload : Payload
  source : String
  timestamp : ℚ
deriving DecidableEq

/-- Modelled from the spec: the outcome of one dispatch (section 3). -/
structure HandlerResult where
  status : Outcome
  result : Option ResultMap
  error_message : Option String
  handled_by : Option String
  duration : ℚ
deriving DecidableEq

/-- Modelled from the spec: one append-only Action Log entry (section 3). -/
structure ActionLogEntry where
  sequence_id : Nat
  agent_name : String
  action : String
  resource : Option String
  timestamp : ℚ
  duration : ℚ
  outcome : Outcome
deriving DecidableEq

/-- Modelled from the spec: per-key rolling statistics kept by the Baseline
Store (section 3): sample count, running mean and the Welford M2
accumulator from which the variance is derived. -/
structure BaselineRecord where
  sample_count : Nat
  running_mean : ℚ
  M2 : ℚ
  last_updated : ℚ
deriving DecidableEq

/-- Alert severity, derived from the thresholded anomaly score. -/
inductive Severity where
  | low
  | medium
  | high
  | critical
deriving DecidableEq

/-- Modelled from the spec: a security alert emitted by the Anomaly Engine
(section 3).  The real-valued anomaly score is represented by its severity
band; the raw ingredients (observed value and baseline mean) are kept. -/
structure Alert where
  agent_name : String
  metric_name : String
  observed_value : ℚ
  baseline_mean : ℚ
  severity : Severity
  timestamp : ℚ
  alert_id : Nat
deriving DecidableEq

/-- Modelled from the spec: the Handler Registry is a finite map from
event-type strings to handler names (section 3, HandlerRegistration). -/
abbrev Registry := List (String × String)

/-- Registration error: the event type is already bound (section 4.1). -/
inductive RegError where
  | DuplicateRegistration
deriving DecidableEq

/-- Routing error: no binding exists for the event type (section 4.1). -/
inductive RouteError where
  | UnknownEventType
deriving DecidableEq

/-- Look an event type up in the registry. -/
def lookupType (reg : Registry) (et : String) : Option String :=
  (reg.find? (fun p => p.1 = et)).map (·.2)

/-- Modelled from the spec (section 4.1): `register` fails with
`DuplicateRegistration` if the event type is already bound, otherwise adds
the binding. -/
def register (reg : Registry) (et hname : String) : Except RegError Registry :=
  if (lookupType reg et).isSome then
    .error .DuplicateRegistration
  else
    .ok (reg ++ [(et, hname)])

/-- Modelled from the spec (section 4.1): `resolve` fails with
`UnknownEventType` if no binding exists. -/
def resolve (reg : Registry) (et : String) : Except RouteError String :=
  match lookupType reg et with
  | some h => .ok h
  | none => .error .UnknownEventType

/-- Modelled from the spec: the mutable state of the core: registry, the
append-only Action Log with its atomic sequence counter, the Baseline
Store (a total map with a zero-count default standing for keys not yet
created), the emitted alerts and the alert-id counter. -/
structure CoreState where
  registry : Registry
  log : List ActionLogEntry
  nextSeq : Nat
  baselines : String × String → BaselineRecord
  alerts : List Alert
  nextAlertId : Nat

/-- A baseline key before its first observation. -/
def emptyBaseline : BaselineRecord :=
  { sample_count := 0, running_mean := 0, M2 := 0, last_updated := 0 }

/-- The state at process start: the registry is built from configuration,
log and alert list empty, every baseline at the no-data record. -/
def initState (reg : Registry) : CoreState :=
  { registry := reg, log := [], nextSeq := 0,
    baselines := fun _ => emptyBaseline, alerts := [], nextAlertId := 0 }

/-- Modelled from the spec (section 4.3): append gives the entry the
current value of the atomic sequence counter and bumps the counter. -/
def appendEntry (st : CoreState) (agent action : String) (resource : Option String)
    (ts dur : ℚ) (oc : Outcome) : CoreState :=
  { st with
    log := st.log ++ [{ sequence_id := st.nextSeq, agent_name := agent, action := action,
                        resource := resource, timestamp := ts, duration := dur, outcome := oc }],
    nextSeq := st.nextSeq + 1 }

/-- An external handler implementation table: for each handler name, a
black-box function from payload to a result or an error (section 6). -/
abbrev HandlerImpl := String → Payload → Except String ResultMap

/-- Modelled from the spec (section 4.2): dispatch.  An empty event type
fails immediately with a routing error before any log entry is written; an
unknown event type returns a routing error and still logs exactly one
entry; otherwise the resolved handler runs (its failure is captured as a
handler error, never propagated) and exactly one entry is logged before
dispatch returns.  `dur` stands for the measured wall-clock duration of
the handler call. -/
def dispatch (impl : HandlerImpl) (st : CoreState) (e : Event) (dur : ℚ) :
    HandlerResult × CoreState :=
  if e.type = "" then
    ({ status := .routing_error, result := none,
       error_message := some "empty event type", handled_by := none, duration := 0 }, st)
  else
    match resolve st.registry e.type with
    | .error _ =>
        ({ status := .routing_error, result := none,
           error_message := some "unknown event type", handled_by := none, duration := 0 },
         appendEntry st "orchestrator" e.type none e.timestamp 0 .routing_error)
    | .ok hname =>
        match impl hname e.payload with
        | .ok res =>
            ({ status := .success, result := some res, error_message := none,
               handled_by := some hname, duration := dur },
             appendEntry st hname e.type none e.timestamp dur .success)
        | .error msg =>
            ({ status := .handler_error, result := none, error_message := some msg,
               handled_by := some hname, duration := dur },
             appendEntry st hname e.type none e.timestamp dur .handler_error)

/-- State-level registration (section 4.1): on success the new binding is
installed, on `DuplicateRegistration` the state is returned untouched
(atomic registration). -/
def registerState (st : CoreState) (et hname : String) :
    Except RegError Unit × CoreState :=
  match register st.registry et hname with
  | .ok r => (.ok (), { st with registry := r })
  | .error err => (.error err, st)

/-- Run a finite sequence of dispatch calls, threading the state. -/
def runDispatches (impl : HandlerImpl) (st : CoreState) (calls : List (Event × ℚ)) :
    CoreState :=
  calls.foldl (fun s c => (dispatch impl s c.1 c.2).2) st

/-- Modelled from the spec (section 4.4): Welford's single-pass update of
one baseline record by an observed value:
count becomes count + 1, delta is value minus mean, the mean moves by
delta over the new count, delta2 is value minus the new mean, and M2 grows
by delta times delta2. -/
def welford (r : BaselineRecord) (v ts : ℚ) : BaselineRecord :=
  let count := r.sample_count + 1
  let delta := v - r.running_mean
  let mean := r.running_mean + delta / (count : ℚ)
  let delta2 := v - mean
  { sample_count := count, running_mean := mean, M2 := r.M2 + delta * delta2,
    last_updated := ts }

/-- Modelled from the spec (section 4.4): population variance, M2 divided
by the sample count. -/
def variance (r : BaselineRecord) : ℚ :=
  r.M2 / (r.sample_count : ℚ)

/-- Current baseline snapshot for one key. -/
def getBaseline (s : CoreState) (agent metric : String) : BaselineRecord :=
  s.baselines (agent, metric)

/-- Modelled from the spec (section 4.4): `observe` folds one value into
the baseline of the key, using Welford's update. -/
def observe (s : CoreState) (agent metric : String) (v ts : ℚ) : CoreState :=
  { s with baselines := fun k =>
      if k = (agent, metric) then welford (s.baselines (agent, metric)) v ts
      else s.baselines k }

/-- Modelled from the spec (section 4.5): the alert decision from one
baseline record and one observed value.  The anomaly score is the
standardized deviation (observed minus mean) over the square root of the
variance; a record with fewer than two samples gives no alert (cold
start).  Each band comparison, score magnitude against a threshold t in
2, 3, 5, 8, is expressed by comparing the squared deviation with t squared
times the variance, which is the same predicate over the reals and stays
exact over the rationals; with variance zero the score is zero when the
value sits on the mean and beyond every band otherwise, which is what
section 8's fifty-identical-observations property requires. -/
def severityFor (r : BaselineRecord) (v : ℚ) : Option Severity :=
  if r.sample_count < 2 then none
  else
    let sigma2 := variance r
    let dev2 := (v - r.running_mean) ^ 2
    if dev2 = 0 then none
    else if dev2 < 4 * sigma2 then none
    else if dev2 < 9 * sigma2 then some .low
    else if dev2 < 25 * sigma2 then some .medium
    else if dev2 < 64 * sigma2 then some .high
    else some .critical

/-- Modelled from the spec (section 4.5): the Anomaly Engine consumes one
new observation for a key.  It first updates the baseline via `observe`,
then scores the value against the snapshot taken before that update, and
appends an alert when the score crosses a severity threshold. -/
def processEntry (s : CoreState) (agent metric : String) (v ts : ℚ) : CoreState :=
  let pre := getBaseline s agent metric
  let s1 := observe s agent metric v ts
  match severityFor pre v with
  | none => s1
  | some sev =>
      { s1 with
        alerts := s1.alerts ++ [{ agent_name := agent, metric_name := metric,
                                  observed_value := v, baseline_mean := pre.running_mean,
                                  severity := sev, timestamp := ts,
                                  alert_id := s1.nextAlertId }],
        nextAlertId := s1.nextAlertId + 1 }

/-- Modelled from the spec (section 6): the record returned by the
anomaly-statistics query. -/
structure UEBAStats where
  total_actions_logged : Nat
  anomalies_detected : Nat
  monitoring_active : Bool
deriving DecidableEq

/-- Modelled from the spec (section 6): `ueba_stats` reports the number of
logged actions, the number of detected anomalies and whether monitoring
is active. -/
def ueba_stats (s : CoreState) : UEBAStats :=
  { total_actions_logged := s.log.length,
    anomalies_detected := s.alerts.length,
    monitoring_active := true }

/-- The state after the Anomaly Engine has consumed fifty observations of
value 10 for the key diagnosis, latency_ms, starting from an empty
baseline (section 8's spike property). -/
def latencyWarmup : CoreState :=
  (List.replicate 50 (10 : ℚ)).foldl
    (fun s v => processEntry s "diagnosis" "latency_ms" v 0) (initState [])

end Aurora

namespace Frontend

/-!
Embedding of the System Health page and the agents API client, from
src/frontend/src/pages/SystemHealth.jsx and src/frontend/src/api/agents.js.
JavaScript objects are embedded as structures of optional fields (a field
the object does not carry is `none`); a fetch that fails is `none`, since
every fetch in `loadSystemHealth` is guarded by a catch that maps the
failure to null.
-/

/-- Shape of the system-info object read by the page. -/
structure SystemInfoJS where
  project_name : Option String
  version : Option String
  environment : Option String
  api_prefix : Option String
  uptime : Option ℚ
  cpu_usage : Option ℚ
  memory_usage : Option ℚ
  disk_usage : Option ℚ
  status : Option String
deriving DecidableEq

/-- Shape of the agent-status object: the page reads the nested status
string of each agent entry. -/
structure AgentStatusJS where
  status : Option String
  master_agent : Option String
  data_analysis : Option String
  diagnosis : Option String
  customer_engagement : Option String
  scheduling : Option String
  feedback : Option String
  manufacturing : Option String
  ueba : Option String
deriving DecidableEq

/-- Shape of the UEBA-stats object as the page reads it: the rendering
accesses total_actions, anomalies_detected and monitoring_active, while
the mock generator supplies total_events, anomalies_detected, risk_score
and last_updated. -/
structure UEBAStatsJS where
  total_events : Option Nat
  total_actions : Option Nat
  anomalies_detected : Option Nat
  risk_score : Option ℚ
  monitoring_active : Option Bool
  last_updated : Option String
deriving DecidableEq

/-- generateMockSystemInfo from SystemHealth.jsx. -/
def generateMockSystemInfo : SystemInfoJS :=
  { project_name := none, version := some "1.0.0", environment := none,
    api_prefix := none, uptime := some 86400, cpu_usage := some (452 / 10),
    memory_usage := some (628 / 10), disk_usage := some (385 / 10),
    status := some "healthy" }

/-- generateMockAgentStatus from SystemHealth.jsx. -/
def generateMockAgentStatus : AgentStatusJS :=
  { status := some "ok", master_agent := some "ok", data_analysis := some "ok",
    diagnosis := some "ok", customer_engagement := some "ok",
    scheduling := some "ok", feedback := some "ok", manufacturing := some "ok",
    ueba := some "ok" }

/-- generateMockUEBAStats from SystemHealth.jsx: it carries total_events,
anomalies_detected, risk_score and a timestamp, but neither total_actions
nor monitoring_active. -/
def generateMockUEBAStats : UEBAStatsJS :=
  { total_events := some 1247, total_actions := none,
    anomalies_detected := some 12, risk_score := some (23 / 100),
    monitoring_active := none, last_updated := some "now" }

/-- The component state the page renders from. -/
structure HealthState where
  systemInfo : Option SystemInfoJS
  agentStatus : Option AgentStatusJS
  uebaStats : Option UEBAStatsJS
  loading : Bool
deriving DecidableEq

/-- loadSystemHealth from SystemHealth.jsx: it first installs the three
mock objects, then replaces each with the fetched value when that fetch
succeeded; a failed fetch was turned into null by its catch handler and
leaves the mock in place; loading ends false. -/
def loadSystemHealth (fetchInfo : Option SystemInfoJS)
    (fetchAgents : Option AgentStatusJS) (fetchUeba : Option UEBAStatsJS) :
    HealthState :=
  { systemInfo := some (fetchInfo.getD generateMockSystemInfo),
    agentStatus := some (fetchAgents.getD generateMockAgentStatus),
    uebaStats := some (fetchUeba.getD generateMockUEBAStats),
    loading := false }

/-- The UEBA Events card and the Total Actions Logged card both render
uebaStats?.total_actions or 0. -/
def renderedTotalActions (h : HealthState) : Nat :=
  (h.uebaStats.bind (·.total_actions)).getD 0

/-- The Anomalies cards render uebaStats?.anomalies_detected or 0. -/
def renderedAnomalies (h : HealthState) : Nat :=
  (h.uebaStats.bind (·.anomalies_detected)).getD 0

/-- The Monitoring Status badge renders Active when
uebaStats?.monitoring_active is truthy, Inactive otherwise. -/
def renderedMonitoringLabel (h : HealthState) : String :=
  if (h.uebaStats.bind (·.monitoring_active)).getD false then "Active" else "Inactive"

/-- The page shows the loading spinner only while loading with no system
info yet; there is no error branch in the component at all. -/
def showsLoadingSpinner (h : HealthState) : Bool :=
  h.loading && h.systemInfo.isNone

end Frontend

namespace Aurora

/-- Reading the baseline of the key just observed gives the Welford-updated
record. -/
lemma getBaseline_observe_self (s : CoreState) (a m : String) (v ts : ℚ) :
    getBaseline (observe s a m v ts) a m = welford (getBaseline s a m) v ts := by
  simp [getBaseline, observe]

/-- A record with fewer than two samples never yields an alert. -/
lemma severityFor_cold (r : BaselineRecord) (v : ℚ) (h : r.sample_count < 2) :
    severityFor r v = none := by
  simp [severityFor, h]

/-- Observing a value equal to the running mean leaves mean and M2 alone
and only bumps the count. -/
lemma welford_fix (r : BaselineRecord) (v : ℚ) (h : r.running_mean = v) :
    welford r v 0 =
      { sample_count := r.sample_count + 1, running_mean := v, M2 := r.M2,
        last_updated := 0 } := by
  simp [welford, h]

/-- A value sitting exactly on the running mean never yields an alert. -/
lemma severityFor_self (r : BaselineRecord) (v : ℚ) (h : r.running_mean = v) :
    severityFor r v = none := by
  simp [severityFor, h]

/-- Processing a value equal to the current mean of its key only feeds the
baseline: the observed key gets the Welford update and no alert appears. -/
lemma processEntry_fix (s : CoreState) (a m : String) (v : ℚ)
    (h : (getBaseline s a m).running_mean = v) :
    getBaseline (processEntry s a m v 0) a m = welford (getBaseline s a m) v 0 ∧
      (processEntry s a m v 0).alerts = s.alerts ∧
      (processEntry s a m v 0).nextAlertId = s.nextAlertId := by
  have hnone : severityFor (s.baselines (a, m)) v = none := severityFor_self _ _ h
  simp [processEntry, observe, getBaseline, hnone]

/-- Folding a block of identical observations into a key whose baseline
already sits on that value just adds to the sample count, keeps the mean,
keeps M2 at zero and emits no alert. -/
lemma fold_const (a m : String) (v : ℚ) :
    ∀ (n : Nat) (s : CoreState) (c : Nat),
      getBaseline s a m =
        { sample_count := c, running_mean := v, M2 := 0, last_updated := 0 } →
      getBaseline
          ((List.replicate n v).foldl (fun t x => processEntry t a m x 0) s) a m =
        { sample_count := c + n, running_mean := v, M2 := 0, last_updated := 0 } ∧
      ((List.replicate n v).foldl (fun t x => processEntry t a m x 0) s).alerts =
        s.alerts ∧
      ((List.replicate n v).foldl (fun t x => processEntry t a m x 0) s).nextAlertId =
        s.nextAlertId := by
  intro n
  induction n with
  | zero => intro s c h; simpa using h
  | succ k ih =>
      intro s c h
      rw [List.replicate_succ, List.foldl_cons]
      have hm : (getBaseline s a m).running_mean = v := by rw [h]
      obtain ⟨h1, h2, h3⟩ := processEntry_fix s a m v hm
      have hw : getBaseline (processEntry s a m v 0) a m =
          { sample_count := c + 1, running_mean := v, M2 := 0, last_updated := 0 } := by
        rw [h1, h, welford_fix _ _ rfl]
      obtain ⟨g1, g2, g3⟩ := ih (processEntry s a m v 0) (c + 1) hw
      refine ⟨?_, ?_, ?_⟩
      · rw [g1]; congr 1; omega
      · rw [g2, h2]
      · rw [g3, h3]

/-- Appending one entry keeps the sequence ids equal to the initial
segment of the naturals below the counter. -/
lemma appendEntry_seq_inv (st : CoreState) (agent action : String)
    (resource : Option String) (ts dur : ℚ) (oc : Outcome)
    (h : st.log.map (·.sequence_id) = List.range st.nextSeq) :
    (appendEntry st agent action resource ts dur oc).log.map (·.sequence_id) =
      List.range (appendEntry st agent action resource ts dur oc).nextSeq := by
  simp [appendEntry, List.range_succ, h]

/-- One dispatch call preserves the sequence-id invariant. -/
lemma dispatch_seq_inv (impl : HandlerImpl) (st : CoreState) (e : Event) (d : ℚ)
    (h : st.log.map (·.sequence_id) = List.range st.nextSeq) :
    (dispatch impl st e d).2.log.map (·.sequence_id) =
      List.range (dispatch impl st e d).2.nextSeq := by
  unfold dispatch
  by_cases he : e.type = ""
  · simpa [he] using h
  · simp only [he, if_false]
    cases hr : resolve st.registry e.type with
    | error err => simpa [hr] using appendEntry_seq_inv st _ _ _ _ _ _ h
    | ok hname =>
        cases hi : impl hname e.payload with
        | ok res => simpa [hr, hi] using appendEntry_seq_inv st _ _ _ _ _ _ h
        | error msg => simpa [hr, hi] using appendEntry_seq_inv st _ _ _ _ _ _ h

/-- The sequence-id invariant holds along any run of dispatch calls. -/
lemma runDispatches_seq_inv (impl : HandlerImpl) (calls : List (Event × ℚ)) :
    ∀ (st : CoreState), st.log.map (·.sequence_id) = List.range st.nextSeq →
      (runDispatches impl st calls).log.map (·.sequence_id) =
        List.range (runDispatches impl st calls).nextSeq := by
  induction calls with
  | nil => intro st h; simpa [runDispatches] using h
  | cons c rest ih =>
      intro st h
      have hstep := dispatch_seq_inv impl st c.1 c.2 h
      simpa [runDispatches, List.foldl_cons] using
        ih (dispatch impl st c.1 c.2).2 hstep

end Aurora

namespace Aurora

/-- The magnitude of a ratio against a square root is below a bound
exactly when the squared numerator is below the squared bound times the
radicand. -/
lemma abs_div_sqrt_lt (a q t : ℝ) (hq : 0 < q) (ht : 0 ≤ t) :
    |a| / Real.sqrt q < t ↔ a ^ 2 < t ^ 2 * q := by
  have hs : 0 < Real.sqrt q := Real.sqrt_pos.mpr hq
  rw [div_lt_iff₀ hs]
  have hmul : t * Real.sqrt q = Real.sqrt (t ^ 2 * q) := by
    rw [Real.sqrt_mul (by positivity), Real.sqrt_sq ht]
  rw [hmul, ← Real.sqrt_sq_eq_abs]
  exact Real.sqrt_lt_sqrt_iff (by positivity)

/-- C1 (counterexample): an event whose type is the empty string is not
bound in an empty registry, and dispatching it returns a routing error,
yet the Action Log stays empty: no entry at all is appended, refuting the
claim that every dispatch of an unbound type appends exactly one entry. -/
theorem dispatch_unbound_empty_type_counterexample :
    lookupType (initState []).registry "" = none ∧
    (dispatch (fun _ _ => .ok []) (initState [])
        { type := "", payload := [], source := "api", timestamp := 0 } 0).1.status =
      .routing_error ∧
    (dispatch (fun _ _ => .ok []) (initState [])
        { type := "", payload := [], source := "api", timestamp := 0 } 0).2.log = [] := by
  refine ⟨rfl, ?_, ?_⟩ <;> simp [dispatch, initState]

/-- C1 (amended): for every event whose type is non-empty and not bound in
the Handler Registry, dispatch returns a routing-error result, appends
exactly one Action Log entry whose outcome is routing_error before it
returns, and invokes no handler: the outcome is identical under any two
handler implementations. -/
theorem dispatch_unknown_type_routing_error (impl impl2 : HandlerImpl)
    (st : CoreState) (e : Event) (d : ℚ)
    (hne : e.type ≠ "") (hun : lookupType st.registry e.type = none) :
    (dispatch impl st e d).1.status = .routing_error ∧
    (dispatch impl st e d).2.log =
      st.log ++ [{ sequence_id := st.nextSeq, agent_name := "orchestrator",
                   action := e.type, resource := none, timestamp := e.timestamp,
                   duration := 0, outcome := .routing_error }] ∧
    dispatch impl st e d = dispatch impl2 st e d := by
  have hres : resolve st.registry e.type = .error .UnknownEventType := by
    simp [resolve, hun]
  refine ⟨?_, ?_, ?_⟩ <;> simp [dispatch, hne, hres, appendEntry]

/-- Witness for the amended C1 theorem at a concrete unbound event type
and two different handler tables. -/
theorem dispatch_unknown_type_routing_error_witness :
    ("predict_failure" : String) ≠ "" ∧
    lookupType (initState []).registry "predict_failure" = none ∧
    ((dispatch (fun _ _ => .ok []) (initState [])
        { type := "predict_failure", payload := [], source := "api", timestamp := 0 }
        0).1.status = .routing_error ∧
     (dispatch (fun _ _ => .ok []) (initState [])
        { type := "predict_failure", payload := [], source := "api", timestamp := 0 }
        0).2.log =
       (initState []).log ++
         [{ sequence_id := (initState []).nextSeq, agent_name := "orchestrator",
            action := "predict_failure", resource := none, timestamp := 0,
            duration := 0, outcome := .routing_error }] ∧
     dispatch (fun _ _ => .ok []) (initState [])
        { type := "predict_failure", payload := [], source := "api", timestamp := 0 } 0 =
       dispatch (fun _ _ => .error "boom") (initState [])
        { type := "predict_failure", payload := [], source := "api", timestamp := 0 } 0) :=
  ⟨by decide, rfl,
   dispatch_unknown_type_routing_error (fun _ _ => .ok []) (fun _ _ => .error "boom")
     (initState [])
     { type := "predict_failure", payload := [], source := "api", timestamp := 0 }
     0 (by decide) rfl⟩

/-- C2: starting from an empty Action Log, after any finite sequence of
dispatch calls the sequence ids in the log are exactly the consecutive
integers from zero below the log length, in particular a permutation of
consecutive integers with no duplicates and no gaps, and they appear in
strictly increasing order. -/
theorem log_sequence_ids_consecutive (reg : Registry) (impl : HandlerImpl)
    (calls : List (Event × ℚ)) :
    (runDispatches impl (initState reg) calls).log.map (·.sequence_id) =
      List.range (runDispatches impl (initState reg) calls).log.length ∧
    List.Pairwise (· < ·)
      ((runDispatches impl (initState reg) calls).log.map (·.sequence_id)) := by
  have h0 : (initState reg).log.map (·.sequence_id) =
      List.range (initState reg).nextSeq := by
    simp [initState]
  have hinv := runDispatches_seq_inv impl calls (initState reg) h0
  have hlen : (runDispatches impl (initState reg) calls).log.length =
      (runDispatches impl (initState reg) calls).nextSeq := by
    have hc := congrArg List.length hinv
    simpa using hc
  constructor
  · rw [hlen]; exact hinv
  · rw [hinv]; exact List.pairwise_lt_range _

/-- C3: one observation updates the baseline of its key exactly by
Welford's single-pass update: the count grows by one, the mean moves by
delta over the new count, M2 grows by delta times the deviation from the
new mean, and the variance is M2 over the count (population variance). -/
theorem observe_is_welford_update (s : CoreState) (a m : String) (v ts : ℚ) :
    (getBaseline (observe s a m v ts) a m).sample_count =
      (getBaseline s a m).sample_count + 1 ∧
    (getBaseline (observe s a m v ts) a m).running_mean =
      (getBaseline s a m).running_mean +
        (v - (getBaseline s a m).running_mean) /
          (((getBaseline s a m).sample_count : ℚ) + 1) ∧
    (getBaseline (observe s a m v ts) a m).M2 =
      (getBaseline s a m).M2 +
        (v - (getBaseline s a m).running_mean) *
          (v - (getBaseline (observe s a m v ts) a m).running_mean) ∧
    variance (getBaseline (observe s a m v ts) a m) =
      (getBaseline (observe s a m v ts) a m).M2 /
        ((getBaseline (observe s a m v ts) a m).sample_count : ℚ) := by
  rw [getBaseline_observe_self]
  refine ⟨rfl, ?_, rfl, rfl⟩
  simp only [welford]
  push_cast
  ring

/-- C4: processing one new observation first updates the baseline via
observe and then scores the value against the snapshot taken before that
update: the emitted alert, if any, is determined by the pre-update
record, so the new value is excluded from the statistics it is compared
against. -/
theorem engine_scores_pre_update_baseline (s : CoreState) (a m : String) (v ts : ℚ) :
    (processEntry s a m v ts).baselines = (observe s a m v ts).baselines ∧
    (processEntry s a m v ts).alerts =
      s.alerts ++
        (match severityFor (getBaseline s a m) v with
          | none => []
          | some sev =>
              [{ agent_name := a, metric_name := m, observed_value := v,
                 baseline_mean := (getBaseline s a m).running_mean,
                 severity := sev, timestamp := ts, alert_id := s.nextAlertId }]) := by
  cases hsev : severityFor (getBaseline s a m) v with
  | none =>
      have hsev2 : severityFor (s.baselines (a, m)) v = none := hsev
      simp [processEntry, observe, getBaseline, hsev2]
  | some sev =>
      have hsev2 : severityFor (s.baselines (a, m)) v = some sev := hsev
      simp [processEntry, observe, getBaseline, hsev2]

/-- C5: an observation on a key whose baseline holds fewer than two
samples emits no alert and only feeds the baseline: the alert list is
unchanged and the key's record receives the Welford update. -/
theorem cold_start_no_alert (s : CoreState) (a m : String) (v ts : ℚ)
    (h : (getBaseline s a m).sample_count < 2) :
    (processEntry s a m v ts).alerts = s.alerts ∧
    getBaseline (processEntry s a m v ts) a m = welford (getBaseline s a m) v ts := by
  have hcold : severityFor (s.baselines (a, m)) v = none :=
    severityFor_cold _ _ h
  constructor
  · simp [processEntry, observe, getBaseline, hcold]
  · simp [processEntry, observe, getBaseline, hcold]

/-- Witness for the cold-start theorem: the very first observation of a
key in a fresh state feeds the baseline without emitting an alert. -/
theorem cold_start_no_alert_witness :
    (getBaseline (initState []) "diagnosis" "latency_ms").sample_count < 2 ∧
    ((processEntry (initState []) "diagnosis" "latency_ms" 5 0).alerts =
        (initState []).alerts ∧
      getBaseline (processEntry (initState []) "diagnosis" "latency_ms" 5 0)
          "diagnosis" "latency_ms" =
        welford (getBaseline (initState []) "diagnosis" "latency_ms") 5 0) :=
  ⟨by decide, cold_start_no_alert (initState []) "diagnosis" "latency_ms" 5 0 (by decide)⟩

/-- C8: registering a handler for an event type that is already bound
fails with DuplicateRegistration and leaves the whole state, in
particular the registry mapping, exactly as it was: nothing is added,
replaced or removed. -/
theorem duplicate_registration_rejected (st : CoreState) (et hname : String)
    (h : (lookupType st.registry et).isSome = true) :
    (registerState st et hname).1 = .error .DuplicateRegistration ∧
    (registerState st et hname).2 = st := by
  simp [registerState, register, h]

/-- Witness for the duplicate-registration theorem on a registry that
already binds the event type. -/
theorem duplicate_registration_rejected_witness :
    (lookupType (initState [("predict_failure", "diagnosis")]).registry
        "predict_failure").isSome = true ∧
    ((registerState (initState [("predict_failure", "diagnosis")])
        "predict_failure" "other").1 = .error .DuplicateRegistration ∧
      (registerState (initState [("predict_failure", "diagnosis")])
        "predict_failure" "other").2 = initState [("predict_failure", "diagnosis")]) :=
  ⟨by decide,
   duplicate_registration_rejected (initState [("predict_failure", "diagnosis")])
     "predict_failure" "other" (by decide)⟩

/-- C9: the anomaly-statistics query returns a record carrying the
total-actions-logged, anomalies-detected and monitoring-active fields,
populated from the state. -/
theorem ueba_stats_fields (s : CoreState) :
    (ueba_stats s).total_actions_logged = s.log.length ∧
    (ueba_stats s).anomalies_detected = s.alerts.length ∧
    (ueba_stats s).monitoring_active = true :=
  ⟨rfl, rfl, rfl⟩

end Aurora

namespace Aurora

/-- C6: whenever the anomaly score is defined (at least two samples and
positive variance), the alert decision and the severity are a function of
the magnitude of the standardized score, observed minus mean over the
square root of the variance, under exactly the spec's bands: below 2 no
alert, from 2 up to 3 low, from 3 up to 5 medium, from 5 up to 8 high,
and at 8 or above critical. -/
theorem severity_bands (b : BaselineRecord) (v : ℚ)
    (hc : 2 ≤ b.sample_count) (hM : 0 < b.M2) :
    (severityFor b v = none ↔
      |((v : ℝ) - (b.running_mean : ℝ)) / Real.sqrt ((variance b : ℚ) : ℝ)| < 2) ∧
    (severityFor b v = some .low ↔
      2 ≤ |((v : ℝ) - (b.running_mean : ℝ)) / Real.sqrt ((variance b : ℚ) : ℝ)| ∧
      |((v : ℝ) - (b.running_mean : ℝ)) / Real.sqrt ((variance b : ℚ) : ℝ)| < 3) ∧
    (severityFor b v = some .medium ↔
      3 ≤ |((v : ℝ) - (b.running_mean : ℝ)) / Real.sqrt ((variance b : ℚ) : ℝ)| ∧
      |((v : ℝ) - (b.running_mean : ℝ)) / Real.sqrt ((variance b : ℚ) : ℝ)| < 5) ∧
    (severityFor b v = some .high ↔
      5 ≤ |((v : ℝ) - (b.running_mean : ℝ)) / Real.sqrt ((variance b : ℚ) : ℝ)| ∧
      |((v : ℝ) - (b.running_mean : ℝ)) / Real.sqrt ((variance b : ℚ) : ℝ)| < 8) ∧
    (severityFor b v = some .critical ↔
      8 ≤ |((v : ℝ) - (b.running_mean : ℝ)) / Real.sqrt ((variance b : ℚ) : ℝ)|) := by
  have hcQ : (0 : ℚ) < (b.sample_count : ℚ) := by
    have h : 0 < b.sample_count := by omega
    exact_mod_cast h
  have hq : (0 : ℚ) < variance b := div_pos hM hcQ
  have hqR : (0 : ℝ) < ((variance b : ℚ) : ℝ) := by exact_mod_cast hq
  set a : ℝ := (v : ℝ) - (b.running_mean : ℝ) with ha
  set q : ℝ := ((variance b : ℚ) : ℝ) with hqdef
  set sc : ℝ := |a / Real.sqrt q| with hsc
  have habs : sc = |a| / Real.sqrt q := by
    rw [hsc, abs_div, abs_of_nonneg (Real.sqrt_nonneg q)]
  have hcast : ∀ c : ℚ, ((v - b.running_mean) ^ 2 < c * variance b) ↔
      a ^ 2 < ((c : ℚ) : ℝ) * q := by
    intro c
    have h1 : a ^ 2 = (((v - b.running_mean) ^ 2 : ℚ) : ℝ) := by
      rw [ha]; push_cast; ring
    have h2 : ((c : ℚ) : ℝ) * q = ((c * variance b : ℚ) : ℝ) := by
      rw [hqdef]; push_cast; ring
    rw [h1, h2]
    exact_mod_cast Iff.rfl
  have hband : ∀ (c : ℚ) (t : ℝ), ((c : ℚ) : ℝ) = t ^ 2 → 0 ≤ t →
      (((v - b.running_mean) ^ 2 < c * variance b) ↔ sc < t) := by
    intro c t hct htn
    rw [hcast c, hct, habs]
    exact (abs_div_sqrt_lt a q t hqR htn).symm
  have b4 := hband 4 2 (by norm_num) (by norm_num)
  have b9 := hband 9 3 (by norm_num) (by norm_num)
  have b25 := hband 25 5 (by norm_num) (by norm_num)
  have b64 := hband 64 8 (by norm_num) (by norm_num)
  have h2' : ¬ b.sample_count < 2 := by omega
  by_cases h0 : (v - b.running_mean) ^ 2 = 0
  · have hz : a = 0 := by
      have hv : v - b.running_mean = 0 := by
        exact pow_eq_zero_iff (two_ne_zero).elim |>.mp h0
      rw [ha]
      exact_mod_cast hv
    have hs0 : sc = 0 := by rw [hsc, hz, zero_div, abs_zero]
    have hL : severityFor b v = none := by
      simp [severityFor, h2', h0]
    rw [hL, hs0]
    refine ⟨iff_of_true rfl (by norm_num), ?_, ?_, ?_, ?_⟩
    · exact iff_of_false (by simp) (fun hx => by linarith [hx.1])
    · exact iff_of_false (by simp) (fun hx => by linarith [hx.1])
    · exact iff_of_false (by simp) (fun hx => by linarith [hx.1])
    · exact iff_of_false (by simp) (by intro hx; linarith)
  · by_cases h4 : (v - b.running_mean) ^ 2 < 4 * variance b
    · have g4 : sc < 2 := b4.mp h4
      have hL : severityFor b v = none := by
        simp [severityFor, h2', h0, h4]
      rw [hL]
      refine ⟨iff_of_true rfl g4, ?_, ?_, ?_, ?_⟩
      · exact iff_of_false (by simp) (fun hx => by linarith [hx.1])
      · exact iff_of_false (by simp) (fun hx => by linarith [hx.1])
      · exact iff_of_false (by simp) (fun hx => by linarith [hx.1])
      · exact iff_of_false (by simp) (by intro hx; linarith)
    · have g4 : ¬ sc < 2 := fun hx => h4 (b4.mpr hx)
      by_cases h9 : (v - b.running_mean) ^ 2 < 9 * variance b
      · have g9 : sc < 3 := b9.mp h9
        have hL : severityFor b v = some .low := by
          simp [severityFor, h2', h0, h4, h9]
        rw [hL]
        refine ⟨iff_of_false (by simp) g4,
                iff_of_true rfl ⟨not_lt.mp g4, g9⟩, ?_, ?_, ?_⟩
        · exact iff_of_false (by simp) (fun hx => by linarith [hx.1])
        · exact iff_of_false (by simp) (fun hx => by linarith [hx.1])
        · exact iff_of_false (by simp) (by intro hx; linarith)
      · have g9 : ¬ sc < 3 := fun hx => h9 (b9.mpr hx)
        by_cases h25 : (v - b.running_mean) ^ 2 < 25 * variance b
        · have g25 : sc < 5 := b25.mp h25
          have hL : severityFor b v = some .medium := by
            simp [severityFor, h2', h0, h4, h9, h25]
          rw [hL]
          refine ⟨iff_of_false (by simp) g4,
                  iff_of_false (by simp) (fun hx => by linarith [not_lt.mp g9, hx.2]),
                  iff_of_true rfl ⟨not_lt.mp g9, g25⟩, ?_, ?_⟩
          · exact iff_of_false (by simp) (fun hx => by linarith [hx.1])
          · exact iff_of_false (by simp) (by intro hx; linarith)
        · have g25 : ¬ sc < 5 := fun hx => h25 (b25.mpr hx)
          by_cases h64 : (v - b.running_mean) ^ 2 < 64 * variance b
          · have g64 : sc < 8 := b64.mp h64
            have hL : severityFor b v = some .high := by
              simp [severityFor, h2', h0, h4, h9, h25, h64]
            rw [hL]
            refine ⟨iff_of_false (by simp) g4,
                    iff_of_false (by simp) (fun hx => by linarith [not_lt.mp g25, hx.2]),
                    iff_of_false (by simp) (fun hx => by linarith [not_lt.mp g25, hx.2]),
                    iff_of_true rfl ⟨not_lt.mp g25, g64⟩, ?_⟩
            exact iff_of_false (by simp) (by intro hx; linarith)
          · have g64 : ¬ sc < 8 := fun hx => h64 (b64.mpr hx)
            have hL : severityFor b v = some .critical := by
              simp [severityFor, h2', h0, h4, h9, h25, h64]
            rw [hL]
            exact ⟨iff_of_false (by simp) g4,
                   iff_of_false (by simp) (fun hx => by linarith [not_lt.mp g64, hx.2]),
                   iff_of_false (by simp) (fun hx => by linarith [not_lt.mp g64, hx.2]),
                   iff_of_false (by simp) (fun hx => by linarith [not_lt.mp g64, hx.2]),
                   iff_of_true rfl (not_lt.mp g64)⟩

/-- Witness for the severity-band theorem at a concrete baseline of two
samples with variance one and an observation four deviations out. -/
theorem severity_bands_witness :
    2 ≤ (⟨2, 0, 2, 0⟩ : BaselineRecord).sample_count ∧
    0 < (⟨2, 0, 2, 0⟩ : BaselineRecord).M2 ∧
    ((severityFor (⟨2, 0, 2, 0⟩ : BaselineRecord) 4 = none ↔
      |(((4 : ℚ) : ℝ) - ((⟨2, 0, 2, 0⟩ : BaselineRecord).running_mean : ℝ)) / Real.sqrt ((variance (⟨2, 0, 2, 0⟩ : BaselineRecord) : ℚ) : ℝ)| < 2) ∧
    (severityFor (⟨2, 0, 2, 0⟩ : BaselineRecord) 4 = some .low ↔
      2 ≤ |(((4 : ℚ) : ℝ) - ((⟨2, 0, 2, 0⟩ : BaselineRecord).running_mean : ℝ)) / Real.sqrt ((variance (⟨2, 0, 2, 0⟩ : BaselineRecord) : ℚ) : ℝ)| ∧
      |(((4 : ℚ) : ℝ) - ((⟨2, 0, 2, 0⟩ : BaselineRecord).running_mean : ℝ)) / Real.sqrt ((variance (⟨2, 0, 2, 0⟩ : BaselineRecord) : ℚ) : ℝ)| < 3) ∧
    (severityFor (⟨2, 0, 2, 0⟩ : BaselineRecord) 4 = some .medium ↔
      3 ≤ |(((4 : ℚ) : ℝ) - ((⟨2, 0, 2, 0⟩ : BaselineRecord).running_mean : ℝ)) / Real.sqrt ((variance (⟨2, 0, 2, 0⟩ : BaselineRecord) : ℚ) : ℝ)| ∧
      |(((4 : ℚ) : ℝ) - ((⟨2, 0, 2, 0⟩ : BaselineRecord).running_mean : ℝ)) / Real.sqrt ((variance (⟨2, 0, 2, 0⟩ : BaselineRecord) : ℚ) : ℝ)| < 5) ∧
    (severityFor (⟨2, 0, 2, 0⟩ : BaselineRecord) 4 = some .high ↔
      5 ≤ |(((4 : ℚ) : ℝ) - ((⟨2, 0, 2, 0⟩ : BaselineRecord).running_mean : ℝ)) / Real.sqrt ((variance (⟨2, 0, 2, 0⟩ : BaselineRecord) : ℚ) : ℝ)| ∧
      |(((4 : ℚ) : ℝ) - ((⟨2, 0, 2, 0⟩ : BaselineRecord).running_mean : ℝ)) / Real.sqrt ((variance (⟨2, 0, 2, 0⟩ : BaselineRecord) : ℚ) : ℝ)| < 8) ∧
    (severityFor (⟨2, 0, 2, 0⟩ : BaselineRecord) 4 = some .critical ↔
      8 ≤ |(((4 : ℚ) : ℝ) - ((⟨2, 0, 2, 0⟩ : BaselineRecord).running_mean : ℝ)) / Real.sqrt ((variance (⟨2, 0, 2, 0⟩ : BaselineRecord) : ℚ) : ℝ)|)) :=
  ⟨by decide, by decide, severity_bands (⟨2, 0, 2, 0⟩ : BaselineRecord) 4 (by decide) (by decide)⟩

end Aurora

namespace Aurora

/-- C7: starting from an empty baseline for the key diagnosis, latency_ms,
after fifty observations of value 10 (baseline mean 10, variance 0) a
fifty-first observation of value 500 produces exactly one alert, with
severity critical, and the squared deviation of the observation from the
pre-update baseline is at or beyond the critical band, 64 times the
variance. -/
theorem latency_spike_critical_alert :
    (processEntry latencyWarmup "diagnosis" "latency_ms" 500 0).alerts =
      [{ agent_name := "diagnosis", metric_name := "latency_ms",
         observed_value := 500, baseline_mean := 10, severity := .critical,
         timestamp := 0, alert_id := 0 }] ∧
    (500 - (getBaseline latencyWarmup "diagnosis" "latency_ms").running_mean) ^ 2 ≥
      64 * variance (getBaseline latencyWarmup "diagnosis" "latency_ms") := by
  have hb1 : getBaseline (processEntry (initState []) "diagnosis" "latency_ms" 10 0)
      "diagnosis" "latency_ms" =
      { sample_count := 1, running_mean := 10, M2 := 0, last_updated := 0 } := by
    norm_num [processEntry, getBaseline, observe, initState, emptyBaseline,
      severityFor, welford, variance]
  have ha1 : (processEntry (initState []) "diagnosis" "latency_ms" 10 0).alerts = [] := by
    norm_num [processEntry, getBaseline, observe, initState, emptyBaseline, severityFor]
  have hn1 : (processEntry (initState []) "diagnosis" "latency_ms" 10 0).nextAlertId = 0 := by
    norm_num [processEntry, getBaseline, observe, initState, emptyBaseline, severityFor]
  have hrepl : List.replicate 50 (10 : ℚ) = 10 :: List.replicate 49 (10 : ℚ) := by
    norm_num [List.replicate_succ]
  have hwdef : latencyWarmup =
      (List.replicate 49 (10 : ℚ)).foldl
        (fun t x => processEntry t "diagnosis" "latency_ms" x 0)
        (processEntry (initState []) "diagnosis" "latency_ms" 10 0) := by
    unfold latencyWarmup
    rw [hrepl, List.foldl_cons]
  obtain ⟨hbw, haw, hnw⟩ :=
    fold_const "diagnosis" "latency_ms" 10 49
      (processEntry (initState []) "diagnosis" "latency_ms" 10 0) 1 hb1
  have hbW : getBaseline latencyWarmup "diagnosis" "latency_ms" =
      { sample_count := 50, running_mean := 10, M2 := 0, last_updated := 0 } := by
    rw [hwdef, hbw]
  have haW : latencyWarmup.alerts = [] := by rw [hwdef, haw, ha1]
  have hnW : latencyWarmup.nextAlertId = 0 := by rw [hwdef, hnw, hn1]
  have hx : latencyWarmup.baselines ("diagnosis", "latency_ms") =
      { sample_count := 50, running_mean := 10, M2 := 0, last_updated := 0 } := hbW
  have hsev : severityFor
      { sample_count := 50, running_mean := 10, M2 := 0, last_updated := 0 } (500 : ℚ) =
      some .critical := by
    norm_num [severityFor, variance]
  constructor
  · simp [processEntry, getBaseline, observe, haW, hnW, hx, hsev]
  · rw [hbW]
    norm_num [variance]

end Aurora

namespace Frontend

/-- C10: loading the System Health page installs the hard-coded mock
values for system info, agent status and UEBA stats, and a failing fetch
leaves the corresponding mock in place; for every combination of backend
failures the state holds data (never an error, the spinner is off), and
with every backend fetch failing the rendered cards show the mock data
with the absent total-actions counter rendered as zero and monitoring
shown Inactive. -/
theorem system_health_mock_fallback (i : Option SystemInfoJS)
    (ag : Option AgentStatusJS) (u : Option UEBAStatsJS) :
    (loadSystemHealth i ag u).systemInfo = some (i.getD generateMockSystemInfo) ∧
    (loadSystemHealth i ag u).agentStatus = some (ag.getD generateMockAgentStatus) ∧
    (loadSystemHealth i ag u).uebaStats = some (u.getD generateMockUEBAStats) ∧
    showsLoadingSpinner (loadSystemHealth i ag u) = false ∧
    renderedTotalActions (loadSystemHealth none none none) = 0 ∧
    renderedAnomalies (loadSystemHealth none none none) = 12 ∧
    renderedMonitoringLabel (loadSystemHealth none none none) = "Inactive" :=
  ⟨rfl, rfl, rfl, rfl, rfl, rfl, rfl⟩

end Frontend
